import Mathlib

/-!
Verification development for the AI-Job-Application-Agents repository.

The Python sources are shallowly embedded:
* `src/agents/job-searcher-agent.py` — job scoring and ranking
  (`calculate_job_score`, `get_match_reasons`, `search_jobs`);
* `src/agents/real_job_search_api.py` — provider fallback logic
  (`search_jobs_with_fallback`, `_create_setup_instructions`);
* `src/agents/real_resume_parser.py` — resume parsing
  (`extract_text_from_pdf`, `extract_contact_info`, `extract_skills`,
  `extract_experience_level`, `extract_education`, `extract_summary`,
  `parse_resume`).

Python floats are modelled as `ℚ` (all arithmetic here has small exact
denominators), Python `int(...)` truncation as `pyInt`, Python sets of
strings as `Finset String` (or deduplicated lists where an iteration
order is required), and byte strings as `List Nat`.  External effects
(HTTP calls, the PDF extraction libraries, the wall clock) are explicit
parameters.
-/

/-- Python substring test `pat in hay` on strings (empty pattern is
always contained, as in Python). -/
def strContainsAux (pat : List Char) : List Char → Bool
  | [] => pat.isEmpty
  | c :: t => pat.isPrefixOf (c :: t) || strContainsAux pat t

/-- `strContains hay pat` models Python `pat in hay`. -/
def strContains (hay pat : String) : Bool :=
  strContainsAux pat.data hay.data

/-- Python `s.lower()` (character-wise ASCII lowering; all texts in this
repository are ASCII). -/
def pyLower (s : String) : String :=
  ⟨s.data.map Char.toLower⟩

/-- Python `int(q)` truncates toward zero. -/
def pyInt (q : ℚ) : ℤ :=
  if 0 ≤ q then ⌊q⌋ else ⌈q⌉

/-- A job posting as stored in `JobSearcherAgent.mock_jobs`. -/
structure Job where
  id : String
  title : String
  company : String
  location : String
  jobType : String
  salary_range : String
  description : String
  required_skills : List String
  experience_level : String
  remote_ok : Bool
  posted_days_ago : ℤ
deriving DecidableEq, Repr

/-- The fields of the parsed-resume dict that `search_jobs`,
`calculate_job_score` and `get_match_reasons` read. -/
structure Resume where
  skills : List String
  experience_level : String
  preferred_location : String
deriving DecidableEq, Repr

/-- Python `set(skill.lower() for skill in l)`. -/
def lowerSet (l : List String) : Finset String :=
  (l.map pyLower).toFinset

/-- Skills component of `calculate_job_score` (weight 50): the fraction
of the job's required skills the candidate has, skipped when the job
lists no skills. -/
def skillsScoreQ (job : Job) (r : Resume) : ℚ :=
  let cand := lowerSet r.skills
  let js := lowerSet job.required_skills
  if js.card ≠ 0 then ((cand ∩ js).card : ℚ) / (js.card : ℚ) * 50 else 0

/-- Experience-level factor of `calculate_job_score`: `1.0` on exact
(lower-cased) equality, `0.8` when the candidate level contains
`"senior"` and the job level contains `"mid"`, `0.6` when the candidate
level contains `"mid"` and the job level contains `"junior"`, else `0`.
Arguments are the already lower-cased levels, as in the source. -/
def expMatch (candExp jobExp : String) : ℚ :=
  if candExp = jobExp then 1
  else if strContains candExp "senior" && strContains jobExp "mid" then 0.8
  else if strContains candExp "mid" && strContains jobExp "junior" then 0.6
  else 0

/-- Location factor of `calculate_job_score`. -/
def locationMatch (job : Job) (r : Resume) : ℚ :=
  let pref := pyLower r.preferred_location
  let jl := pyLower job.location
  if job.remote_ok && strContains pref "remote" then 1
  else if strContains jl pref then 1
  else if strContains jl "remote" then 0.7
  else 0

/-- Recency factor of `calculate_job_score`: `max(0, (30 - days)/30)`. -/
def recencyScoreQ (job : Job) : ℚ :=
  max 0 ((30 - (job.posted_days_ago : ℚ)) / 30)

/-- The raw (pre-clamp) score accumulated by `calculate_job_score`. -/
def scoreQ (job : Job) (r : Resume) : ℚ :=
  skillsScoreQ job r
    + expMatch (pyLower r.experience_level) (pyLower job.experience_level) * 20
    + locationMatch job r * 15
    + recencyScoreQ job * 15

/-- `JobSearcherAgent.calculate_job_score`: the raw score truncated with
`int(...)` and clamped with `min(100, max(0, ...))`. -/
def calculate_job_score (job : Job) (r : Resume) : ℤ :=
  min 100 (max 0 (pyInt (scoreQ job r)))

/-- The matching skill list used for the skills reason string.  Python
iterates an (unordered) set here; we fix the candidate-list order, which
is one admissible iteration order of that set. -/
def matchingSkillsList (job : Job) (r : Resume) : List String :=
  ((r.skills.map pyLower).dedup).filter
    (fun s => s ∈ job.required_skills.map pyLower)

/-- `JobSearcherAgent.get_match_reasons`: appends one reason string per
satisfied condition, in source order (skills, experience, remote,
recency). -/
def get_match_reasons (job : Job) (r : Resume) : List String :=
  let matching := matchingSkillsList job r
  let candExp := pyLower r.experience_level
  let jobExp := pyLower job.experience_level
  (if matching ≠ [] then
    ["Strong skills match: " ++ String.intercalate ", " (matching.take 3)]
  else [])
  ++ (if candExp = jobExp then
    ["Perfect experience level match: " ++ jobExp]
  else [])
  ++ (if job.remote_ok then ["Offers remote work flexibility"] else [])
  ++ (if job.posted_days_ago ≤ 3 then
    ["Recently posted (fresh opportunity)"]
  else [])

/-- A job dict after `search_jobs` injected `match_score` and
`match_reasons`. -/
structure ScoredJob where
  job : Job
  match_score : ℤ
  match_reasons : List String
deriving DecidableEq, Repr

instance : Inhabited ScoredJob :=
  ⟨{ job := { id := "", title := "", company := "", location := "",
              jobType := "", salary_range := "", description := "",
              required_skills := [], experience_level := "",
              remote_ok := false, posted_days_ago := 0 },
     match_score := 0, match_reasons := [] }⟩

/-- `JobSearcherAgent.mock_jobs`, transcribed from the source. -/
def mock_jobs : List Job :=
  [{ id := "job_001", title := "Senior React Developer",
     company := "TechFlow Inc", location := "San Francisco, CA",
     jobType := "Full-time", salary_range := "$120,000 - $160,000",
     description := "Build scalable React applications with TypeScript. Work with modern tools like Next.js, GraphQL, and AWS.",
     required_skills := ["React", "TypeScript", "JavaScript", "Node.js", "GraphQL", "AWS"],
     experience_level := "Senior", remote_ok := true, posted_days_ago := 2 },
   { id := "job_002", title := "Full Stack Engineer",
     company := "StartupX", location := "Remote",
     jobType := "Full-time", salary_range := "$100,000 - $140,000",
     description := "Join our growing team to build the next generation of fintech products using React, Node.js, and Python.",
     required_skills := ["React", "Node.js", "Python", "PostgreSQL", "Docker"],
     experience_level := "Mid-Level", remote_ok := true, posted_days_ago := 1 },
   { id := "job_003", title := "Frontend Developer",
     company := "DesignCorp", location := "New York, NY",
     jobType := "Full-time", salary_range := "$90,000 - $120,000",
     description := "Create beautiful user interfaces with React and work closely with our design team.",
     required_skills := ["React", "CSS", "JavaScript", "Figma", "HTML"],
     experience_level := "Junior", remote_ok := false, posted_days_ago := 3 },
   { id := "job_004", title := "DevOps Engineer",
     company := "CloudTech", location := "Seattle, WA",
     jobType := "Full-time", salary_range := "$110,000 - $150,000",
     description := "Manage cloud infrastructure and CI/CD pipelines using AWS, Kubernetes, and Terraform.",
     required_skills := ["AWS", "Kubernetes", "Docker", "Terraform", "Python", "Linux"],
     experience_level := "Senior", remote_ok := true, posted_days_ago := 1 },
   { id := "job_005", title := "Python Backend Developer",
     company := "DataSoft", location := "Austin, TX",
     jobType := "Contract", salary_range := "$80,000 - $110,000",
     description := "Build scalable APIs and data processing systems using Python, Django, and PostgreSQL.",
     required_skills := ["Python", "Django", "PostgreSQL", "Redis", "REST APIs"],
     experience_level := "Mid-Level", remote_ok := true, posted_days_ago := 4 }]

/-- `JobSearcherAgent.search_jobs`: score every mock job, keep those
scoring strictly above 50, attach the reasons and sort by score,
highest first. -/
def search_jobs (r : Resume) : List ScoredJob :=
  let scored := mock_jobs.filterMap (fun j =>
    let sc := calculate_job_score j r
    if 50 < sc then some ⟨j, sc, get_match_reasons j r⟩ else none)
  scored.insertionSort (fun a b => b.match_score ≤ a.match_score)


/-! ### Concrete inputs used by the claim theorems and witnesses -/

/-- Candidate profile used to exercise `search_jobs` (the sample resume
shape from the agent demo). -/
def c1_resume : Resume :=
  { skills := ["React", "TypeScript", "Node.js", "Python", "AWS", "JavaScript"],
    experience_level := "Senior", preferred_location := "Remote" }

/-- The first mock job (`job_001`), restated for the C1 witness. -/
def c1_job : Job :=
  { id := "job_001", title := "Senior React Developer",
    company := "TechFlow Inc", location := "San Francisco, CA",
    jobType := "Full-time", salary_range := "$120,000 - $160,000",
    description := "Build scalable React applications with TypeScript. Work with modern tools like Next.js, GraphQL, and AWS.",
    required_skills := ["React", "TypeScript", "JavaScript", "Node.js", "GraphQL", "AWS"],
    experience_level := "Senior", remote_ok := true, posted_days_ago := 2 }

/-- The scored entry that `search_jobs c1_resume` produces for `c1_job`. -/
def c1_scored : ScoredJob :=
  ⟨c1_job, 90,
   ["Strong skills match: react, typescript, node.js",
    "Perfect experience level match: senior",
    "Offers remote work flexibility",
    "Recently posted (fresh opportunity)"]⟩

/-- C3 scenario job: required skills Python and AWS, posted today,
seniority equal to the candidate, remote allowed. -/
def c3_job : Job :=
  { id := "job_c3", title := "Backend Engineer", company := "Acme",
    location := "Anywhere", jobType := "Full-time", salary_range := "",
    description := "", required_skills := ["Python", "AWS"],
    experience_level := "Senior", remote_ok := true, posted_days_ago := 0 }

/-- C3 scenario candidate: knows Python only, prefers remote. -/
def c3_resume : Resume :=
  { skills := ["Python"], experience_level := "Senior",
    preferred_location := "Remote" }

/-- C5 counterexample job: a Mid-Level, non-remote, 30-day-old posting
with no required skills. -/
def c5_job : Job :=
  { id := "job_c5", title := "QA Engineer", company := "Acme",
    location := "Seattle, WA", jobType := "Full-time", salary_range := "",
    description := "", required_skills := [],
    experience_level := "Mid-Level", remote_ok := false,
    posted_days_ago := 30 }

/-- C5 counterexample candidate: a Senior candidate (so the seniority
factor contributes 0.8 × 20) whose preferences match nothing else. -/
def c5_resume : Resume :=
  { skills := [], experience_level := "Senior",
    preferred_location := "Austin" }

/-- C6 witness job. -/
def c6_job : Job :=
  { id := "job_c6", title := "Cloud Engineer", company := "Acme",
    location := "Remote", jobType := "Full-time", salary_range := "",
    description := "", required_skills := ["Python", "AWS"],
    experience_level := "Senior", remote_ok := true, posted_days_ago := 1 }

/-- C6 witness candidate. -/
def c6_resume : Resume :=
  { skills := ["Python"], experience_level := "Senior",
    preferred_location := "Remote" }

/-! ### `real_job_search_api.py`: provider fallback -/

/-- A job in the standardized format produced by the
`_format_jsearch_response` / `_format_adzuna_response` helpers. -/
structure ApiJob where
  id : String
  title : String
  company : String
  company_logo : Option String
  location : String
  description : String
  salary : String
  employment_type : String
  posted_date : String
  apply_link : String
  source : String
  job_highlights : List (String × String)
deriving DecidableEq, Repr

/-- The `jsearch_rapidapi` block of `_create_setup_instructions`. -/
structure JSearchSetup where
  description : String
  signup_url : String
  free_tier : String
  env_variable : String
deriving DecidableEq, Repr

/-- The `adzuna` block of `_create_setup_instructions`. -/
structure AdzunaSetup where
  description : String
  signup_url : String
  free_tier : String
  env_variables : List String
deriving DecidableEq, Repr

/-- The `setup_instructions` dict of `_create_setup_instructions`. -/
structure SetupInfo where
  jsearch_rapidapi : JSearchSetup
  adzuna : AdzunaSetup
deriving DecidableEq, Repr

/-- A response dict of `RealJobSearchAPI`; optional fields model keys
that only some responses carry. -/
structure ApiResult where
  success : Bool
  api_used : Option String
  search_query : Option String
  location : Option String
  total_results : Option Nat
  jobs : List ApiJob
  error : Option String
  setup_instructions : Option SetupInfo
  next_steps : List String
  searched_at : String
  api_limit_info : Option String
deriving DecidableEq, Repr

/-- `RealJobSearchAPI._create_setup_instructions` (`now` is the
`datetime.now().isoformat()` reading). -/
def create_setup_instructions (now : String) : ApiResult :=
  { success := false,
    api_used := none, search_query := none, location := none,
    total_results := none,
    jobs := [],
    error := some "No job search APIs configured",
    setup_instructions := some
      { jsearch_rapidapi :=
          { description := "Best option - aggregates jobs from Google, Indeed, LinkedIn",
            signup_url := "https://rapidapi.com/letscrape-6bRBa3QguO5/api/jsearch",
            free_tier := "150 requests/month",
            env_variable := "RAPIDAPI_KEY" },
        adzuna :=
          { description := "Good alternative - direct API access",
            signup_url := "https://developer.adzuna.com/",
            free_tier := "1,000 requests/month",
            env_variables := ["ADZUNA_APP_ID", "ADZUNA_APP_KEY"] } },
    next_steps :=
      ["1. Sign up for JSearch at RapidAPI (recommended)",
       "2. Get your API key and set RAPIDAPI_KEY environment variable",
       "3. Alternatively, sign up for Adzuna API",
       "4. Restart your application after setting environment variables"],
    searched_at := now,
    api_limit_info := none }

/-- `RealJobSearchAPI.search_jobs_with_fallback`.  The network is
external, so `jsearchRes` and `adzunaRes` are the responses the two
provider methods would return if called; `jsearchKey`, `adzunaId` and
`adzunaKey` are the configured credentials (Python truthiness of a
string is modelled as being non-empty).  The source calls JSearch only
when its key is set and accepts its result only when it is a success
with a non-empty job list; it then calls Adzuna only when both Adzuna
credentials are set and accepts any success; otherwise it returns the
setup-instruction failure. -/
def search_jobs_with_fallback (jsearchKey adzunaId adzunaKey : String)
    (jsearchRes adzunaRes : ApiResult) (now : String) : ApiResult :=
  if jsearchKey ≠ "" ∧ jsearchRes.success = true ∧ 0 < jsearchRes.jobs.length then
    jsearchRes
  else if (adzunaId ≠ "" ∧ adzunaKey ≠ "") ∧ adzunaRes.success = true then
    adzunaRes
  else
    create_setup_instructions now

/-- An Adzuna response for a query with zero hits, as
`_format_adzuna_response` builds it from an empty `results` array:
a success whose job list is empty. -/
def c2_adzunaEmpty : ApiResult :=
  { success := true,
    api_used := some "Adzuna",
    search_query := some "Python Developer",
    location := some "United States",
    total_results := some 0,
    jobs := [],
    error := none,
    setup_instructions := none,
    next_steps := [],
    searched_at := "2025-01-01T00:00:00",
    api_limit_info := some "1,000 requests/month (Free tier)" }

/-- An arbitrary JSearch response (unused on the counterexample path
because the JSearch key is unconfigured there). -/
def c2_jsearchUnused : ApiResult :=
  { success := false,
    api_used := none, search_query := none, location := none,
    total_results := none, jobs := [],
    error := some "JSearch API key not configured. Get free key from RapidAPI.com",
    setup_instructions := none, next_steps := [],
    searched_at := "2025-01-01T00:00:00", api_limit_info := none }

/-! ### `real_resume_parser.py`: character and regex helpers -/

/-- Regex `\w` (ASCII): letters, digits, underscore. -/
def isWordChar (c : Char) : Bool :=
  c.isAlphanum || c = '_'

/-- Python regex `\s`: space, tab, newline, carriage return, vertical
tab, form feed. -/
def isSpaceChar (c : Char) : Bool :=
  c = ' ' || c = '\t' || c = '\n' || c = '\r' || c = '\x0b' || c = '\x0c'

/-- The separator class `[-.\s]` of the phone patterns. -/
def isSepChar (c : Char) : Bool :=
  c = '-' || c = '.' || isSpaceChar c

/-- Python `s.strip()` on a character list. -/
def pyStripList (cs : List Char) : List Char :=
  ((cs.dropWhile isSpaceChar).reverse.dropWhile isSpaceChar).reverse

/-- Python `s.strip()`. -/
def pyStrip (s : String) : String :=
  ⟨pyStripList s.data⟩

/-- Python `text.split(chr(10))` helper. -/
def splitLinesAux : List Char → List Char → List (List Char)
  | [], acc => [acc.reverse]
  | '\n' :: t, acc => acc.reverse :: splitLinesAux t []
  | c :: t, acc => splitLinesAux t (c :: acc)

/-- Python `text.split(chr(10))`: split on every newline. -/
def pySplitLines (s : String) : List String :=
  (splitLinesAux s.data []).map (fun l => (⟨l⟩ : String))

/-- Python `s.split()` helper: split on whitespace runs, no empties. -/
def splitWsAux : List Char → List Char → List (List Char)
  | [], acc => if acc.isEmpty then [] else [acc.reverse]
  | c :: t, acc =>
    if isSpaceChar c then
      if acc.isEmpty then splitWsAux t [] else acc.reverse :: splitWsAux t []
    else splitWsAux t (c :: acc)

/-- Python `s.split()` (no argument). -/
def pySplitWs (s : String) : List String :=
  (splitWsAux s.data []).map (fun l => (⟨l⟩ : String))

/-- Regex `\b` at position `i` of `cs`: exactly one side of the position
is a word character (out of bounds counts as non-word). -/
def boundaryAt (cs : List Char) (i : Nat) : Bool :=
  let left := if i = 0 then false else isWordChar (cs.getD (i - 1) ' ')
  let right := if i < cs.length then isWordChar (cs.getD i ' ') else false
  left != right

/-- A word-bounded occurrence of the literal `pat` in `hay`: the model
of `re.search(chr(92) ++ "b" ++ re.escape(pat) ++ chr(92) ++ "b", hay)`
succeeding. -/
def wordBoundedContains (hay pat : String) : Bool :=
  let h := hay.data
  let p := pat.data
  (List.range (h.length + 1)).any (fun i =>
    ((h.drop i).take p.length == p) && boundaryAt h i
      && boundaryAt h (i + p.length))

/-- Python `s.title()`: uppercase every letter that follows a
non-letter, lowercase every other letter. -/
def titleCaseAux : Bool → List Char → List Char
  | _, [] => []
  | prevAlpha, c :: t =>
    (if c.isAlpha then (if prevAlpha then c.toLower else c.toUpper) else c)
      :: titleCaseAux c.isAlpha t

/-- Python `s.title()`. -/
def titleCase (s : String) : String :=
  ⟨titleCaseAux false s.data⟩

/-- Match a literal (given lower-case) case-insensitively at the head of
the text; returns the rest of the text. -/
def matchLitCI : List Char → List Char → Option (List Char)
  | [], cs => some cs
  | _, [] => none
  | p :: ps, c :: cs => if c.toLower = p then matchLitCI ps cs else none

/-- Regex `[\s]+` (at least one whitespace character), greedy. -/
def skipWs1 (cs : List Char) : Option (List Char) :=
  match cs with
  | c :: t => if isSpaceChar c then some (t.dropWhile isSpaceChar) else none
  | [] => none

/-- After a section header: the source patterns continue with
`[\s\n]*[:\-]?\s*` and then capture `.{0,maxLen}?` lazily up to the
lookahead terminator; with `re.MULTILINE` the `$` alternative of the
lookahead matches before every newline, so the lazy capture stops at the
first newline (or after `maxLen` characters).  Returns the captured
content and the remaining text. -/
def sectionContent (maxLen : Nat) (cs : List Char) : List Char × List Char :=
  let cs1 := cs.dropWhile isSpaceChar
  let cs2 :=
    match cs1 with
    | c :: t => if c = ':' ∨ c = '-' then t else cs1
    | [] => cs1
  let cs3 := cs2.dropWhile isSpaceChar
  let content := (cs3.takeWhile (fun c => c ≠ '\n')).take maxLen
  (content, cs3.drop content.length)

/-- `re.findall` driver for the section patterns: scan left to right;
at each position try the header alternation, emit the captured section
content and continue after it (fuel is the text length, enough since
every match consumes at least one character). -/
def sectionScanAux (header : List Char → Option (List Char)) (maxLen : Nat) :
    Nat → List Char → List String
  | 0, _ => []
  | _ + 1, [] => []
  | fuel + 1, c :: t =>
    match header (c :: t) with
    | some rest =>
      let cr := sectionContent maxLen rest
      (⟨cr.1⟩ : String) :: sectionScanAux header maxLen fuel cr.2
    | none => sectionScanAux header maxLen fuel t

/-- All section contents for a header alternation. -/
def sectionContents (header : List Char → Option (List Char)) (maxLen : Nat)
    (text : String) : List String :=
  sectionScanAux header maxLen (text.data.length + 1) text.data

/-- `RealResumeParser.tech_skills`, transcribed from the source (a
Python set literal; modelled as a list in source order — every entry is
distinct). -/
def tech_skills : List String :=
  ["python", "javascript", "java", "c++", "c#", "php", "ruby", "go", "rust", "swift",
   "kotlin", "scala", "typescript", "dart", "r", "matlab", "perl", "shell", "bash",
   "c", "objective-c", "lua", "haskell", "erlang", "clojure", "f#", "vb.net",
   "react", "angular", "vue.js", "vue", "jquery", "bootstrap", "tailwind", "html", "css",
   "html5", "css3", "sass", "less", "webpack", "vite", "next.js", "nuxt.js", "svelte",
   "ember.js", "backbone.js", "redux", "mobx", "vuex", "styled-components",
   "node.js", "express", "django", "flask", "spring", "laravel", "rails", "asp.net",
   "fastapi", "koa", "nestjs", "gin", "fiber", "actix", "rocket", "axum",
   "mysql", "postgresql", "mongodb", "redis", "sqlite", "oracle", "sql server",
   "cassandra", "elasticsearch", "dynamodb", "firebase", "prisma", "sequelize",
   "mariadb", "neo4j", "couchdb", "influxdb", "cockroachdb", "supabase",
   "aws", "azure", "gcp", "google cloud", "docker", "kubernetes", "jenkins",
   "gitlab ci", "github actions", "terraform", "ansible", "chef", "puppet",
   "vagrant", "nginx", "apache", "cloudflare", "vercel", "netlify", "heroku",
   "machine learning", "deep learning", "tensorflow", "pytorch", "scikit-learn",
   "pandas", "numpy", "jupyter", "tableau", "power bi", "spark", "hadoop",
   "kafka", "airflow", "dbt", "snowflake", "databricks", "mlflow", "kubeflow",
   "ios", "android", "react native", "flutter", "xamarin", "ionic", "cordova",
   "unity", "unreal engine", "cocos2d", "phonegap",
   "git", "svn", "jira", "confluence", "slack", "figma", "sketch", "photoshop",
   "linux", "unix", "windows", "macos", "vim", "vscode", "intellij", "eclipse",
   "postman", "insomnia", "swagger", "graphql", "rest api", "soap", "grpc",
   "jest", "mocha", "chai", "cypress", "selenium", "junit", "pytest", "rspec",
   "cucumber", "testng", "mockito", "sinon", "enzyme", "react testing library",
   "agile", "scrum", "kanban", "waterfall", "lean", "six sigma", "devops",
   "ci/cd", "tdd", "bdd", "pair programming", "code review"]

/-- Header alternation of the skills-section pattern
`(skills?|technologies?|technical\s+skills?|programming\s+languages?)`,
alternatives tried in regex order, each `x?` greedily. -/
def skillsHeader (cs : List Char) : Option (List Char) :=
  (matchLitCI "skills".data cs).orElse fun _ =>
  (matchLitCI "skill".data cs).orElse fun _ =>
  (matchLitCI "technologies".data cs).orElse fun _ =>
  (matchLitCI "technologie".data cs).orElse fun _ =>
  ((matchLitCI "technical".data cs).bind (fun r =>
    (skipWs1 r).bind (fun r2 =>
      (matchLitCI "skills".data r2).orElse fun _ =>
        matchLitCI "skill".data r2))).orElse fun _ =>
  (matchLitCI "programming".data cs).bind (fun r =>
    (skipWs1 r).bind (fun r2 =>
      (matchLitCI "languages".data r2).orElse fun _ =>
        matchLitCI "language".data r2))

/-- `RealResumeParser.extract_skills`: word-bounded vocabulary search
over the whole lower-cased text, plus a plain substring search inside
dedicated skills sections; the union is title-cased, deduplicated and
returned sorted. -/
def extract_skills (text : String) : List String :=
  let textLower := pyLower text
  let fromBody := tech_skills.filter (fun s =>
    wordBoundedContains textLower (pyLower s))
  let sections := sectionContents skillsHeader 500 text
  let fromSections := tech_skills.filter (fun s =>
    sections.any (fun c => strContains (pyLower c) (pyLower s)))
  (((fromBody ++ fromSections).map titleCase).dedup).insertionSort (· ≤ ·)

/-- Match exactly `n` digits; returns the rest. -/
def digitsN : Nat → List Char → Option (List Char)
  | 0, cs => some cs
  | _ + 1, [] => none
  | n + 1, c :: cs => if c.isDigit then digitsN n cs else none

/-- Take exactly `n` digits; returns them and the rest. -/
def digitsTake : Nat → List Char → Option (List Char × List Char)
  | 0, cs => some ([], cs)
  | _ + 1, [] => none
  | n + 1, c :: cs =>
    if c.isDigit then (digitsTake n cs).map (fun dr => (c :: dr.1, dr.2))
    else none

/-- Greedy optional single character (`x?`): try consuming, fall back
to not consuming. -/
def optCharThen (p : Char → Bool) (k : List Char → Option (List Char))
    (cs : List Char) : Option (List Char) :=
  match cs with
  | c :: t => if p c then (k t).orElse (fun _ => k cs) else k cs
  | [] => k cs

/-- The part of the US phone pattern after the optional country-code
group: `\(?[0-9]{3}\)?[-.\s]?[0-9]{3}[-.\s]?[0-9]{4}`. -/
def usRest (cs : List Char) : Option (List Char) :=
  optCharThen (· = '(') (fun cs1 =>
    (digitsN 3 cs1).bind (fun cs2 =>
      optCharThen (· = ')') (fun cs3 =>
        optCharThen isSepChar (fun cs4 =>
          (digitsN 3 cs4).bind (fun cs5 =>
            optCharThen isSepChar (digitsN 4) cs5)) cs3) cs2)) cs

/-- Greedy alternatives for the country-code group `(\+?1[-.\s]?)?` of
the US phone pattern, in backtracking order, with the captured text. -/
def usGroupCandidates (cs : List Char) : List (List Char × List Char) :=
  match cs with
  | '+' :: '1' :: c :: t =>
    if isSepChar c then [(['+', '1', c], t), (['+', '1'], c :: t)]
    else [(['+', '1'], c :: t)]
  | ['+', '1'] => [(['+', '1'], [])]
  | '1' :: c :: t =>
    if isSepChar c then [(['1', c], t), (['1'], c :: t)]
    else [(['1'], c :: t)]
  | ['1'] => [(['1'], [])]
  | _ => []

/-- Try the US phone pattern at the current position; returns the
country-code capture (`""` when the optional group did not participate,
exactly as `re.findall` reports it) and the rest of the text. -/
def usMatchAt (cs : List Char) : Option (String × List Char) :=
  match (usGroupCandidates cs).findSome?
      (fun gc => (usRest gc.2).map (fun rest => ((⟨gc.1⟩ : String), rest))) with
  | some r => some r
  | none => (usRest cs).map (fun rest => ("", rest))

/-- `re.findall` driver for the US phone pattern: for a pattern with one
capture group, `findall` returns the list of group captures of the
non-overlapping matches, scanning left to right. -/
def usFindAllAux : Nat → List Char → List String
  | 0, _ => []
  | _ + 1, [] => []
  | fuel + 1, c :: t =>
    match usMatchAt (c :: t) with
    | some cr => cr.1 :: usFindAllAux fuel cr.2
    | none => usFindAllAux fuel t

/-- The captures returned by `re.findall` for the first (US) phone
pattern. -/
def usPhoneCaptures (text : String) : List String :=
  usFindAllAux (text.data.length + 1) text.data

/-- Greedy `[0-9]{3,4}` followed by a continuation. -/
def digits34 (k : List Char → Option (List Char)) (cs : List Char) :
    Option (List Char) :=
  ((digitsN 4 cs).bind k).orElse (fun _ => (digitsN 3 cs).bind k)

/-- The part of the international phone pattern after the optional
group: `[0-9]{3,4}[-.\s]?[0-9]{3,4}[-.\s]?[0-9]{3,4}`. -/
def intlRest (cs : List Char) : Option (List Char) :=
  digits34 (fun cs1 =>
    optCharThen isSepChar (fun cs2 =>
      digits34 (fun cs3 =>
        optCharThen isSepChar (fun cs4 =>
          digits34 some cs4) cs3) cs2) cs1) cs

/-- Group alternatives for `(\+?[0-9]{1,3}[-.\s]?)?` after an optional
leading `+` has been handled: digit counts greedily 3, 2, 1, each with
and without a trailing separator. -/
def intlDigitOptions (pre : List Char) (cs : List Char) :
    List (List Char × List Char) :=
  ([3, 2, 1].map (fun k =>
    match digitsTake k cs with
    | some dr =>
      match dr.2 with
      | c :: t =>
        if isSepChar c then [(pre ++ dr.1 ++ [c], t), (pre ++ dr.1, dr.2)]
        else [(pre ++ dr.1, dr.2)]
      | [] => [(pre ++ dr.1, [])]
    | none => [])).flatten

/-- Greedy alternatives for the international pattern's capture group. -/
def intlGroupCandidates (cs : List Char) : List (List Char × List Char) :=
  match cs with
  | '+' :: t => intlDigitOptions ['+'] t
  | _ => intlDigitOptions [] cs

/-- Try the international phone pattern at the current position. -/
def intlMatchAt (cs : List Char) : Option (String × List Char) :=
  match (intlGroupCandidates cs).findSome?
      (fun gc => (intlRest gc.2).map (fun rest => ((⟨gc.1⟩ : String), rest))) with
  | some r => some r
  | none => (intlRest cs).map (fun rest => ("", rest))

/-- `re.findall` driver for the international phone pattern. -/
def intlFindAllAux : Nat → List Char → List String
  | 0, _ => []
  | _ + 1, [] => []
  | fuel + 1, c :: t =>
    match intlMatchAt (c :: t) with
    | some cr => cr.1 :: intlFindAllAux fuel cr.2
    | none => intlFindAllAux fuel t

/-- The captures of the second (international) phone pattern. -/
def intlPhoneCaptures (text : String) : List String :=
  intlFindAllAux (text.data.length + 1) text.data

/-- Python `re.sub(r"[^\d+]", "", phone)`. -/
def cleanPhone (s : String) : String :=
  ⟨s.data.filter (fun c => c.isDigit || c = '+')⟩

/-- Character class of the email local part `[A-Za-z0-9._%+-]`. -/
def isEmailLocalChar (c : Char) : Bool :=
  c.isAlphanum || c = '.' || c = '_' || c = '%' || c = '+' || c = '-'

/-- Character class of the email domain `[A-Za-z0-9.-]`. -/
def isEmailDomainChar (c : Char) : Bool :=
  c.isAlphanum || c = '.' || c = '-'

/-- Character class of the email suffix `[A-Z|a-z]` (the source class
literally contains `|`). -/
def isTldChar (c : Char) : Bool :=
  c.isAlpha || c = '|'

/-- Match `[A-Z|a-z]{2,}\b` greedily; returns the consumed length. -/
def emailTldLen (cs : List Char) : Option Nat :=
  let run := cs.takeWhile isTldChar
  if 2 ≤ run.length then
    match cs.drop run.length with
    | [] => some run.length
    | c :: _ => if isWordChar c then none else some run.length
  else none

/-- Match `[A-Za-z0-9.-]+\.[A-Z|a-z]{2,}\b` with the greedy-then-backtrack
behaviour of the `+`: longest domain prefix first; returns the consumed
length. -/
def emailDomainLen (cs : List Char) : Option Nat :=
  let run := cs.takeWhile isEmailDomainChar
  (((List.range run.length).reverse).map (· + 1)).findSome? (fun L =>
    match cs.drop L with
    | '.' :: rest => (emailTldLen rest).map (fun t => L + 1 + t)
    | _ => none)

/-- Try the email pattern
`\b[A-Za-z0-9._%+-]+@[A-Za-z0-9.-]+\.[A-Z|a-z]{2,}\b` at position `i`;
returns the total match length. -/
def emailMatchLenAt (h : List Char) (i : Nat) : Option Nat :=
  let cs := h.drop i
  let lrun := cs.takeWhile isEmailLocalChar
  if boundaryAt h i ∧ lrun ≠ [] then
    match cs.drop lrun.length with
    | '@' :: rest => (emailDomainLen rest).map (fun d => lrun.length + 1 + d)
    | _ => none
  else none

/-- The first (leftmost) email match, i.e. `emails[0]` of the source's
`re.findall`. -/
def firstEmail (text : String) : Option String :=
  let h := text.data
  (List.range h.length).findSome? (fun i =>
    (emailMatchLenAt h i).map (fun len => ((⟨(h.drop i).take len⟩ : String))))

/-- Try a profile pattern (a case-insensitive literal followed by
`[\w-]+`) at position `i`; returns the match length. -/
def siteMatchLenAt (pat : List Char) (h : List Char) (i : Nat) : Option Nat :=
  match matchLitCI pat (h.drop i) with
  | some rest =>
    let run := rest.takeWhile (fun c => isWordChar c || c = '-')
    if run.isEmpty then none else some (pat.length + run.length)
  | none => none

/-- First match of a profile pattern (`linkedin\.com/in/[\w-]+` or
`github\.com/[\w-]+`), returning the matched text in original case. -/
def firstSiteMatch (pat : List Char) (text : String) : Option String :=
  let h := text.data
  (List.range h.length).findSome? (fun i =>
    (siteMatchLenAt pat h i).map (fun len => ((⟨(h.drop i).take len⟩ : String))))

/-- Try the location pattern `\b[A-Za-z\s]+,\s*[A-Za-z]{2,}\b` at
position `i`; the character classes around each required literal are
disjoint from it, so the greedy runs need no deeper backtracking.
Returns the match length. -/
def locMatchLenAt (h : List Char) (i : Nat) : Option Nat :=
  let cs := h.drop i
  let run1 := cs.takeWhile (fun c => c.isAlpha || isSpaceChar c)
  if boundaryAt h i ∧ run1 ≠ [] then
    match cs.drop run1.length with
    | ',' :: rest =>
      let ws := rest.takeWhile isSpaceChar
      let rest2 := rest.drop ws.length
      let run2 := rest2.takeWhile Char.isAlpha
      if 2 ≤ run2.length then
        match rest2.drop run2.length with
        | [] => some (run1.length + 1 + ws.length + run2.length)
        | c :: _ =>
          if isWordChar c then none
          else some (run1.length + 1 + ws.length + run2.length)
      else none
    | _ => none
  else none

/-- First match of the location pattern (`locations[0]`). -/
def firstLocation (text : String) : Option String :=
  let h := text.data
  (List.range h.length).findSome? (fun i =>
    (locMatchLenAt h i).map (fun len => ((⟨(h.drop i).take len⟩ : String))))

/-- The substrings whose presence in a line makes the name heuristic
skip it. -/
def nameMarkers : List String :=
  ["email", "phone", "tel:", "mobile:", "linkedin", "github", "@", "+", "http"]

/-- The name heuristic of `extract_contact_info`: among the first 8
lines, the first non-blank line without contact markers whose stripped
text is 2 to 4 words, every word alphabetic and capitalised, and less
than 50 characters long. -/
def extractName (text : String) : String :=
  let lines := (pySplitLines text).take 8
  (lines.findSome? (fun line =>
    let l := pyStrip line
    if l = "" then none
    else if nameMarkers.any (fun m => strContains (pyLower l) m) then none
    else
      let words := pySplitWs l
      if 2 ≤ words.length ∧ words.length ≤ 4 ∧
          words.all (fun w =>
            (match w.data with
             | c :: _ => c.isUpper
             | [] => false) && w.data.all Char.isAlpha) ∧
          l.data.length < 50 then
        some l
      else none)).getD ""

/-- The dict returned by `RealResumeParser.extract_contact_info`. -/
structure ContactInfo where
  name : String
  email : String
  phone : String
  location : String
  linkedin : String
  github : String
deriving DecidableEq, Repr

/-- `RealResumeParser.extract_contact_info`.  For the phone field the
source iterates the two phone patterns: `re.findall` on a pattern with
a single capture group returns the group captures, so a non-empty
capture list short-circuits (`break`) even when the first capture is
the empty string, and the kept value is the cleaned *capture*, not the
matched number. -/
def extract_contact_info (text : String) : ContactInfo :=
  let email := (firstEmail text).getD ""
  let phone :=
    match usPhoneCaptures text with
    | p :: _ => cleanPhone p
    | [] =>
      match intlPhoneCaptures text with
      | p :: _ => cleanPhone p
      | [] => ""
  let linkedin :=
    match firstSiteMatch "linkedin.com/in/".data text with
    | some m => "https://" ++ m
    | none => ""
  let github :=
    match firstSiteMatch "github.com/".data text with
    | some m => "https://" ++ m
    | none => ""
  let name := extractName text
  let location := (firstLocation text).getD ""
  { name := name, email := email, phone := phone, location := location,
    linkedin := linkedin, github := github }

/-- `experience_keywords["senior"]`. -/
def seniorKeywords : List String :=
  ["senior", "sr.", "lead", "principal", "architect", "head of", "director"]

/-- `experience_keywords["mid-level"]`. -/
def midKeywords : List String :=
  ["developer", "engineer", "analyst", "specialist", "consultant"]

/-- `experience_keywords["junior"]`. -/
def juniorKeywords : List String :=
  ["junior", "jr.", "associate", "trainee", "intern", "entry-level", "graduate"]

/-- The separator class `[\s\-+]` of the years pattern. -/
def isYearSep (c : Char) : Bool :=
  isSpaceChar c || c = '-' || c = '+'

/-- Alternation `(?:years?|yrs?)`, alternatives in regex order. -/
def yearsWordAlt (cs : List Char) : Option (List Char) :=
  (matchLitCI "years".data cs).orElse fun _ =>
  (matchLitCI "year".data cs).orElse fun _ =>
  (matchLitCI "yrs".data cs).orElse fun _ =>
  matchLitCI "yr".data cs

/-- Alternation `(?:experience|exp)`. -/
def expWordAlt (cs : List Char) : Option (List Char) :=
  (matchLitCI "experience".data cs).orElse fun _ =>
  matchLitCI "exp".data cs

/-- Try the years pattern
`(\d+)[\s\-+]*(?:years?|yrs?)[\s\-+]*(?:of\s+)?(?:experience|exp)` at
the current position; every greedy run is followed by a disjoint
required character, so no deeper backtracking arises.  Returns the
digit capture and the rest. -/
def yearsMatchAt (cs : List Char) : Option (List Char × List Char) :=
  let ds := cs.takeWhile Char.isDigit
  if ds.isEmpty then none
  else
    let r1 := (cs.drop ds.length).dropWhile isYearSep
    (yearsWordAlt r1).bind (fun r2 =>
      let r3 := r2.dropWhile isYearSep
      let withOf := (matchLitCI "of".data r3).bind (fun r4 =>
        match r4 with
        | c :: t =>
          if isSpaceChar c then expWordAlt (t.dropWhile isSpaceChar) else none
        | [] => none)
      (withOf.orElse (fun _ => expWordAlt r3)).map (fun r5 => (ds, r5)))

/-- `re.findall` driver for the years pattern (digit captures). -/
def yearsFindAllAux : Nat → List Char → List (List Char)
  | 0, _ => []
  | _ + 1, [] => []
  | fuel + 1, c :: t =>
    match yearsMatchAt (c :: t) with
    | some dr => dr.1 :: yearsFindAllAux fuel dr.2
    | none => yearsFindAllAux fuel t

/-- The digit captures of the years pattern over a text. -/
def yearsMatches (text : String) : List (List Char) :=
  yearsFindAllAux (text.data.length + 1) text.data

/-- Python `int(...)` on a digit string. -/
def digitsToNat (ds : List Char) : Nat :=
  ds.foldl (fun n c => n * 10 + (c.toNat - '0'.toNat)) 0

/-- The dict returned by `extract_experience_level`. -/
structure ExperienceInfo where
  level : String
  years_experience : String
  confidence : ℚ
deriving DecidableEq, Repr

/-- `RealResumeParser.extract_experience_level`: counts keyword
occurrences per level, takes the maximum years-of-experience figure
(0 if none), and classifies Senior / Mid-level / Junior. -/
def extract_experience_level (text : String) : ExperienceInfo :=
  let tl := pyLower text
  let seniorCount := (seniorKeywords.filter (fun k => strContains tl k)).length
  let midCount := (midKeywords.filter (fun k => strContains tl k)).length
  let juniorCount := (juniorKeywords.filter (fun k => strContains tl k)).length
  let totalYears := ((yearsMatches tl).map digitsToNat).foldl max 0
  let level :=
    if 7 ≤ totalYears ∨ midCount + juniorCount < seniorCount then "Senior"
    else if 3 ≤ totalYears ∨ juniorCount < midCount then "Mid-level"
    else "Junior"
  { level := level,
    years_experience :=
      if 0 < totalYears then toString totalYears ++ "+" else "Not specified",
    confidence := if 0 < totalYears then 0.8 else 0.6 }

/-- `education_keywords` from the source. -/
def education_keywords : List String :=
  ["computer science", "software engineering", "information technology",
   "computer engineering", "electrical engineering", "mathematics", "physics",
   "data science", "artificial intelligence", "cybersecurity",
   "information systems", "business administration", "mba", "bachelor",
   "master", "phd", "doctorate", "degree", "university", "college", "institute"]

/-- Header alternation `(education|academic|qualifications?)`. -/
def eduHeader (cs : List Char) : Option (List Char) :=
  (matchLitCI "education".data cs).orElse fun _ =>
  (matchLitCI "academic".data cs).orElse fun _ =>
  (matchLitCI "qualifications".data cs).orElse fun _ =>
  matchLitCI "qualification".data cs

/-- `RealResumeParser.extract_education`: keywords found in dedicated
education sections; if none, keywords found anywhere in the text.
Python collects them in a set and returns `list(set)`; the iteration
order of that set is unspecified, so the keyword-list order is fixed
here as one admissible order. -/
def extract_education (text : String) : List String :=
  let sections := sectionContents eduHeader 800 text
  let found := education_keywords.filter (fun k =>
    sections.any (fun c => strContains (pyLower c) k))
  let found2 :=
    if found = [] then
      education_keywords.filter (fun k => strContains (pyLower text) k)
    else found
  found2.map titleCase

/-- Header alternation `(summary|profile|objective|about|overview)`. -/
def summaryHeader1 (cs : List Char) : Option (List Char) :=
  (matchLitCI "summary".data cs).orElse fun _ =>
  (matchLitCI "profile".data cs).orElse fun _ =>
  (matchLitCI "objective".data cs).orElse fun _ =>
  (matchLitCI "about".data cs).orElse fun _ =>
  matchLitCI "overview".data cs

/-- Header alternation
`(professional\s+summary|career\s+summary|executive\s+summary)`. -/
def summaryHeader2 (cs : List Char) : Option (List Char) :=
  ((matchLitCI "professional".data cs).bind (fun r =>
    (skipWs1 r).bind (matchLitCI "summary".data))).orElse fun _ =>
  ((matchLitCI "career".data cs).bind (fun r =>
    (skipWs1 r).bind (matchLitCI "summary".data))).orElse fun _ =>
  (matchLitCI "executive".data cs).bind (fun r =>
    (skipWs1 r).bind (matchLitCI "summary".data))

/-- `RealResumeParser.extract_summary`: first summary-section match of
each pattern in turn, kept when its stripped content exceeds 50
characters; otherwise the first of the first 10 lines that is longer
than 100 characters and free of contact markers; otherwise a fixed
default. -/
def extract_summary (text : String) : String :=
  let try1 :=
    match sectionContents summaryHeader1 300 text with
    | c :: _ =>
      let s := pyStrip c
      if 50 < s.data.length then some s else none
    | [] => none
  match try1 with
  | some s => s
  | none =>
    let try2 :=
      match sectionContents summaryHeader2 300 text with
      | c :: _ =>
        let s := pyStrip c
        if 50 < s.data.length then some s else none
      | [] => none
    match try2 with
    | some s => s
    | none =>
      (((pySplitLines text).take 10).findSome? (fun line =>
        let l := pyStrip line
        if 100 < l.data.length ∧
            ¬ (["email", "phone", "linkedin", "github", "@"].any
              (fun m => strContains (pyLower l) m)) then
          some l
        else none)).getD "Professional seeking new opportunities"

/-- The PDF header signature `%PDF-` as bytes. -/
def pdfHeaderBytes : List Nat :=
  [0x25, 0x50, 0x44, 0x46, 0x2D]

/-- `RealResumeParser.extract_text_from_pdf`.  The PDF libraries are
external; `m1` is the outcome of the pdfplumber pass (`.error ()` when
it raised), `m2` the PyPDF2 fallback, and `m3` the text accumulated by
the character-level rescue (`none` when it raised or collected
nothing).  The source first rejects inputs without the `%PDF-` header,
then returns the stripped text of the first pass that did not raise,
failing when what was recovered has no non-whitespace characters. -/
def extract_text_from_pdf (content : List Nat) (m1 m2 : Except Unit String)
    (m3 : Option String) : Except String String :=
  if pdfHeaderBytes.isPrefixOf content then
    match m1 with
    | .ok t =>
      if (pyStrip t).data.length = 0 then
        .error "PDF appears to be empty or contains only images/scanned content"
      else .ok (pyStrip t)
    | .error _ =>
      match m2 with
      | .ok t =>
        if (pyStrip t).data.length = 0 then
          .error "PDF appears to be empty or contains only images/scanned content"
        else .ok (pyStrip t)
      | .error _ =>
        let t := m3.getD ""
        if pyStrip t = "" then
          .error "Could not extract any text from PDF file"
        else .ok (pyStrip t)
  else .error "Invalid PDF file format"

/-- The text the extraction attempts of `extract_text_from_pdf`
collectively recover, following its control flow (later methods run
only when earlier ones raised). -/
def collectedPdfText (m1 m2 : Except Unit String) (m3 : Option String) :
    String :=
  match m1 with
  | .ok t => t
  | .error _ =>
    match m2 with
    | .ok t => t
    | .error _ => m3.getD ""

/-- The dict returned by `RealResumeParser.parse_resume`: `ok` is the
success dict (`success: True`), `err` the failure dict
(`success: False`); both carry the `extracted_at` timestamp. -/
inductive ParseResult where
  | ok (extracted_at : String) (contact_info : ContactInfo)
      (skills : List String) (experience_level : String)
      (years_experience : String) (education : List String)
      (summary : String) (text_length : Nat) (parsing_confidence : ℚ)
  | err (error : String) (extracted_at : String)
deriving DecidableEq, Repr

/-- The `extracted_at` field of either result dict. -/
def ParseResult.extractedAt : ParseResult → String
  | .ok t _ _ _ _ _ _ _ _ => t
  | .err _ t => t

/-- The result with its `extracted_at` field replaced. -/
def ParseResult.withExtractedAt : ParseResult → String → ParseResult
  | .ok _ c sk lv y e su n cf, t => .ok t c sk lv y e su n cf
  | .err e _, t => .err e t

/-- `RealResumeParser.parse_resume`: extract the text, then run every
extractor on it; `now` is the `datetime.now().isoformat()` reading
stored in `extracted_at`.  On any failure the error dict is returned. -/
def parse_resume (content : List Nat) (m1 m2 : Except Unit String)
    (m3 : Option String) (now : String) : ParseResult :=
  match extract_text_from_pdf content m1 m2 m3 with
  | .error e => .err e now
  | .ok text =>
    let contact := extract_contact_info text
    let skills := extract_skills text
    let experience := extract_experience_level text
    let education := extract_education text
    let summary := extract_summary text
    .ok now contact skills experience.level experience.years_experience
      education summary text.data.length experience.confidence

/-! ## Theorems -/

/-- The clamp in `calculate_job_score` keeps every score in `[0, 100]`. -/
theorem calculate_job_score_bounds (job : Job) (r : Resume) :
    0 ≤ calculate_job_score job r ∧ calculate_job_score job r ≤ 100 :=
  ⟨le_min (by norm_num) (le_max_left 0 _), min_le_left _ _⟩

/-- C1: for every candidate profile and job posting,
`calculate_job_score` returns an integer in `[0, 100]`; and every job
in the ranked list produced by `search_jobs` has a match score strictly
above the cutoff 50, so jobs scoring at or below 50 are excluded. -/
theorem spec_C1 :
    (∀ (job : Job) (r : Resume),
        0 ≤ calculate_job_score job r ∧ calculate_job_score job r ≤ 100) ∧
    (∀ (r : Resume) (s : ScoredJob), s ∈ search_jobs r → 50 < s.match_score) := by
  refine ⟨calculate_job_score_bounds, ?_⟩
  intro r s hs
  rw [search_jobs, List.mem_insertionSort] at hs
  obtain ⟨j, _, heq⟩ := List.mem_filterMap.mp hs
  by_cases h : 50 < calculate_job_score j r
  · rw [if_pos h] at heq
    cases heq
    exact h
  · rw [if_neg h] at heq
    exact absurd heq (by simp)

/-- `job_001` scores 90 against the sample candidate. -/
theorem c1_job_score : calculate_job_score c1_job c1_resume = 90 := by
  have h : scoreQ c1_job c1_resume = 272/3 := by
    show ((5:ℕ):ℚ)/((6:ℕ):ℚ) * 50 + (1:ℚ) * 20 + (1:ℚ) * 15
        + max 0 ((30 - ((2:ℤ):ℚ))/30) * 15 = 272/3
    norm_num
  rw [calculate_job_score, h]
  norm_num [pyInt]

/-- The scored entry for `job_001` is in the ranked list for the sample
candidate. -/
theorem c1_mem : c1_scored ∈ search_jobs c1_resume := by
  rw [search_jobs, List.mem_insertionSort]
  refine List.mem_filterMap.mpr ⟨c1_job, by decide, ?_⟩
  rw [c1_job_score]
  norm_num
  decide

/-- C1 witness: the ranked entry for `job_001` under the sample
candidate indeed scores above the cutoff. -/
theorem spec_C1_witness : 50 < c1_scored.match_score :=
  spec_C1.2 c1_resume c1_scored c1_mem

/-- C3: on the scenario job (required skills Python and AWS, posted
today, equal seniority, remote allowed) and candidate (skills Python,
prefers remote), the score is exactly 75 = 25 + 20 + 15 + 15 and the
reason list has exactly one reason per factor. -/
theorem spec_C3 :
    calculate_job_score c3_job c3_resume = 75 ∧
    get_match_reasons c3_job c3_resume =
      ["Strong skills match: python",
       "Perfect experience level match: senior",
       "Offers remote work flexibility",
       "Recently posted (fresh opportunity)"] := by
  constructor
  · have h : scoreQ c3_job c3_resume = 75 := by
      show ((1:ℕ):ℚ)/((2:ℕ):ℚ) * 50 + (1:ℚ) * 20 + (1:ℚ) * 15
          + max 0 ((30 - ((0:ℤ):ℚ))/30) * 15 = 75
      norm_num
    rw [calculate_job_score, h]
    norm_num [pyInt]
  · decide

/-- C4 counterexample: for a Mid-Level candidate and a Junior job — a
candidate exactly one level above the job — the code's seniority factor
is 0.6, not the 0.8 the claim asserts. -/
theorem spec_C4_counterexample :
    expMatch (pyLower "Mid-Level") (pyLower "Junior") = 0.6 ∧
    (0.6 : ℚ) ≠ 0.8 :=
  ⟨rfl, by norm_num⟩

/-- C4 (amended): over the three canonical levels the seniority factor
is 1 on exact equality, 0.8 only for a Senior candidate on a Mid-Level
job, 0.6 only for a Mid-Level candidate on a Junior job, and 0 in every
other case — in particular a Senior candidate on a Junior job scores 0,
and a Mid-Level candidate on a Junior job scores 0.6, not 0.8. -/
theorem spec_C4_amended (candLevel jobLevel : String)
    (hc : candLevel ∈ ["Senior", "Mid-Level", "Junior"])
    (hj : jobLevel ∈ ["Senior", "Mid-Level", "Junior"]) :
    expMatch (pyLower candLevel) (pyLower jobLevel) =
      (if candLevel = jobLevel then 1
       else if candLevel = "Senior" ∧ jobLevel = "Mid-Level" then 0.8
       else if candLevel = "Mid-Level" ∧ jobLevel = "Junior" then 0.6
       else 0) := by
  simp only [List.mem_cons, List.not_mem_nil, or_false] at hc hj
  rcases hc with rfl | rfl | rfl <;> rcases hj with rfl | rfl | rfl <;> rfl

/-- C4 witness: a Senior candidate on a Mid-Level job takes the 0.8
branch of the table. -/
theorem spec_C4_witness :
    expMatch (pyLower "Senior") (pyLower "Mid-Level") =
      (if ("Senior" : String) = "Mid-Level" then 1
       else if ("Senior" : String) = "Senior" ∧ ("Mid-Level" : String) = "Mid-Level" then 0.8
       else if ("Senior" : String) = "Mid-Level" ∧ ("Mid-Level" : String) = "Junior" then 0.6
       else 0) :=
  spec_C4_amended "Senior" "Mid-Level" (by decide) (by decide)

/-- The skills factor of the score is positive exactly when some
candidate skill matches a required skill. -/
theorem skillsScoreQ_pos_iff (j : Job) (r : Resume) :
    0 < skillsScoreQ j r ↔ matchingSkillsList j r ≠ [] := by
  rw [skillsScoreQ, matchingSkillsList]
  by_cases hc : (lowerSet j.required_skills).card ≠ 0
  · rw [if_pos hc]
    constructor
    · intro hpos
      have hinter : 0 < ((lowerSet r.skills ∩ lowerSet j.required_skills).card : ℚ) := by
        by_contra hle
        push_neg at hle
        have : ((lowerSet r.skills ∩ lowerSet j.required_skills).card : ℚ) = 0 :=
          le_antisymm hle (by positivity)
        rw [this] at hpos
        norm_num at hpos
      have hcard : 0 < (lowerSet r.skills ∩ lowerSet j.required_skills).card := by
        exact_mod_cast hinter
      obtain ⟨x, hx⟩ := Finset.card_pos.mp hcard
      rw [Finset.mem_inter] at hx
      intro hnil
      have h1 : x ∈ r.skills.map pyLower := by
        have := hx.1
        rw [lowerSet, List.mem_toFinset] at this
        exact this
      have h2 : x ∈ j.required_skills.map pyLower := by
        have := hx.2
        rw [lowerSet, List.mem_toFinset] at this
        exact this
      have hmem : x ∈ (r.skills.map pyLower).dedup := List.mem_dedup.mpr h1
      have := List.filter_eq_nil_iff.mp hnil x hmem
      simp only [decide_eq_true_eq] at this
      exact this h2
    · intro hnil
      obtain ⟨x, hx⟩ := List.exists_mem_of_ne_nil _ hnil
      rw [List.mem_filter] at hx
      obtain ⟨hxd, hxp⟩ := hx
      simp only [decide_eq_true_eq] at hxp
      have h1 : x ∈ lowerSet r.skills := by
        rw [lowerSet, List.mem_toFinset]
        exact List.mem_dedup.mp hxd
      have h2 : x ∈ lowerSet j.required_skills := by
        rw [lowerSet, List.mem_toFinset]
        exact hxp
      have hcard : 0 < (lowerSet r.skills ∩ lowerSet j.required_skills).card :=
        Finset.card_pos.mpr ⟨x, Finset.mem_inter.mpr ⟨h1, h2⟩⟩
      have hc0 : 0 < ((lowerSet j.required_skills).card : ℚ) := by
        have := Nat.pos_of_ne_zero hc
        exact_mod_cast this
      apply mul_pos _ (by norm_num : (0:ℚ) < 50)
      apply div_pos _ hc0
      exact_mod_cast hcard
  · rw [if_neg hc]
    push_neg at hc
    have hmap : j.required_skills.map pyLower = [] := by
      rw [lowerSet] at hc
      exact (List.toFinset_eq_empty_iff _).mp (Finset.card_eq_zero.mp hc)
    constructor
    · intro h
      norm_num at h
    · intro hnil
      exfalso
      apply hnil
      apply List.filter_eq_nil_iff.mpr
      intro a _
      simp [hmap]

/-- C5 (amended): the reasons appear in the fixed order skills →
seniority → remote → recency; the skills reason is present exactly when
the skills factor is positive, but the seniority reason requires an
*exact* level match (it is omitted for the positive 0.8/0.6 factors),
the remote reason tracks the `remote_ok` flag rather than the location
factor, and the recency reason requires `posted_days_ago ≤ 3` rather
than a positive recency factor. -/
theorem spec_C5_amended (j : Job) (r : Resume) :
    get_match_reasons j r =
      (if 0 < skillsScoreQ j r then
        ["Strong skills match: " ++
          String.intercalate ", " ((matchingSkillsList j r).take 3)]
      else [])
      ++ (if pyLower r.experience_level = pyLower j.experience_level then
        ["Perfect experience level match: " ++ pyLower j.experience_level]
      else [])
      ++ (if j.remote_ok then ["Offers remote work flexibility"] else [])
      ++ (if j.posted_days_ago ≤ 3 then
        ["Recently posted (fresh opportunity)"]
      else []) := by
  rw [get_match_reasons]
  rw [if_congr (skillsScoreQ_pos_iff j r) rfl rfl]

/-- C5 counterexample: for a Senior candidate on a Mid-Level job with
nothing else matching, the seniority factor contributes 0.8 × 20 = 16 to
the score, yet `get_match_reasons` returns no reason at all. -/
theorem spec_C5_counterexample :
    0 < expMatch (pyLower c5_resume.experience_level)
          (pyLower c5_job.experience_level) * 20 ∧
    get_match_reasons c5_job c5_resume = [] := by
  constructor
  · show (0:ℚ) < 0.8 * 20
    norm_num
  · decide

/-- Lower-cased skill sets are invariant under permutation. -/
theorem lowerSet_perm {l1 l2 : List String} (h : List.Perm l1 l2) :
    lowerSet l1 = lowerSet l2 :=
  List.toFinset_eq_of_perm _ _ (h.map pyLower)

/-- Python `int(...)` truncation is monotone. -/
theorem pyInt_mono {a b : ℚ} (h : a ≤ b) : pyInt a ≤ pyInt b := by
  unfold pyInt
  by_cases ha : 0 ≤ a <;> by_cases hb : 0 ≤ b
  · rw [if_pos ha, if_pos hb]
    exact Int.floor_le_floor h
  · exact absurd (le_trans ha h) hb
  · rw [if_neg ha, if_pos hb]
    calc ⌈a⌉ ≤ 0 := Int.ceil_le.mpr (by exact_mod_cast le_of_lt (lt_of_not_le ha))
    _ ≤ ⌊b⌋ := Int.floor_nonneg.mpr hb
  · rw [if_neg ha, if_neg hb]
    exact Int.ceil_le_ceil h

/-- Truncation and clamping preserve the order of raw scores. -/
theorem calculate_job_score_mono_of_scoreQ {j1 j2 : Job} {r : Resume}
    (h : scoreQ j1 r ≤ scoreQ j2 r) :
    calculate_job_score j1 r ≤ calculate_job_score j2 r :=
  min_le_min le_rfl (max_le_max le_rfl (pyInt_mono h))

/-- C6: the score is invariant under permuting the job's required
skills, and appending a required skill the candidate already has never
decreases the score. -/
theorem spec_C6 :
    (∀ (j : Job) (r : Resume) (p : List String),
        List.Perm p j.required_skills →
        calculate_job_score { j with required_skills := p } r =
          calculate_job_score j r) ∧
    (∀ (j : Job) (r : Resume) (s : String),
        pyLower s ∈ r.skills.map pyLower →
        calculate_job_score j r ≤
          calculate_job_score { j with required_skills := j.required_skills ++ [s] } r) := by
  constructor
  · intro j r p hp
    have hset : lowerSet p = lowerSet j.required_skills := lowerSet_perm hp
    simp only [calculate_job_score, scoreQ, skillsScoreQ, expMatch,
      locationMatch, recencyScoreQ, hset]
  · intro j r s hx
    set x := pyLower s with hxdef
    have hxA : x ∈ lowerSet r.skills := by
      rw [lowerSet, List.mem_toFinset]
      exact hx
    have hB' : lowerSet (j.required_skills ++ [s]) =
        insert x (lowerSet j.required_skills) := by
      ext a
      simp [lowerSet, or_comm]
    apply calculate_job_score_mono_of_scoreQ
    have hskills : skillsScoreQ j r ≤
        skillsScoreQ { j with required_skills := j.required_skills ++ [s] } r := by
      simp only [skillsScoreQ, hB']
      by_cases hxB : x ∈ lowerSet j.required_skills
      · rw [Finset.insert_eq_self.mpr hxB]
      · set A := lowerSet r.skills
        set B := lowerSet j.required_skills
        have hcard' : (insert x B).card = B.card + 1 :=
          Finset.card_insert_of_not_mem hxB
        have hinter : A ∩ insert x B = insert x (A ∩ B) :=
          Finset.inter_insert_of_mem hxA
        have hxAB : x ∉ A ∩ B := fun hmem => hxB (Finset.mem_inter.mp hmem).2
        have hinterCard : (A ∩ insert x B).card = (A ∩ B).card + 1 := by
          rw [hinter, Finset.card_insert_of_not_mem hxAB]
        rw [hcard', hinterCard]
        by_cases hn : B.card ≠ 0
        · rw [if_pos hn, if_pos (by omega)]
          have hm : (A ∩ B).card ≤ B.card :=
            Finset.card_le_card Finset.inter_subset_right
          apply mul_le_mul_of_nonneg_right _ (by norm_num : (0:ℚ) ≤ 50)
          rw [div_le_div_iff₀ (by exact_mod_cast Nat.pos_of_ne_zero hn)
            (by positivity)]
          have hmq : (((A ∩ B).card : ℚ)) ≤ (B.card : ℚ) := by exact_mod_cast hm
          push_cast
          nlinarith [hmq]
        · rw [if_neg hn, if_pos (by omega)]
          positivity
    simp only [scoreQ]
    exact add_le_add (add_le_add (add_le_add_right hskills _) le_rfl) le_rfl

/-- C6 witness: permuting the two required skills leaves the concrete
score unchanged, and appending a skill the candidate has does not
decrease it. -/
theorem spec_C6_witness :
    calculate_job_score { c6_job with required_skills := ["AWS", "Python"] } c6_resume =
      calculate_job_score c6_job c6_resume ∧
    calculate_job_score c6_job c6_resume ≤
      calculate_job_score { c6_job with required_skills := c6_job.required_skills ++ ["Python"] } c6_resume :=
  ⟨spec_C6.1 c6_job c6_resume ["AWS", "Python"] (by decide),
   spec_C6.2 c6_job c6_resume "Python" (by decide)⟩

/-- C2 counterexample: with JSearch unconfigured and Adzuna configured
but returning a success with zero jobs, the fallback returns that
success with an empty job list and no setup guidance — contradicting
the claim that only a Success with a non-empty job list is accepted and
that otherwise a setup-guidance Failure is returned. -/
theorem spec_C2_counterexample :
    (search_jobs_with_fallback "" "my-app-id" "my-app-key"
        c2_jsearchUnused c2_adzunaEmpty "2025-01-01T00:00:00").success = true ∧
    (search_jobs_with_fallback "" "my-app-id" "my-app-key"
        c2_jsearchUnused c2_adzunaEmpty "2025-01-01T00:00:00").jobs = [] ∧
    (search_jobs_with_fallback "" "my-app-id" "my-app-key"
        c2_jsearchUnused c2_adzunaEmpty "2025-01-01T00:00:00").setup_instructions = none :=
  ⟨rfl, rfl, rfl⟩

/-- C2 (amended): the fallback tries JSearch before Adzuna; the JSearch
result is accepted only when it is a success with a non-empty job list,
but the Adzuna result is accepted whenever it is a success, even with
an empty job list; in every remaining case the setup-instruction
failure is returned, with `success = false`, an empty job list, and
structured guidance naming `RAPIDAPI_KEY`, `ADZUNA_APP_ID` and
`ADZUNA_APP_KEY` together with the signup URLs.  The embedding is a
total function, so no case raises. -/
theorem spec_C2_amended (jk aid ak : String) (jr ar : ApiResult) (now : String) :
    (jk ≠ "" → jr.success = true → jr.jobs ≠ [] →
      search_jobs_with_fallback jk aid ak jr ar now = jr) ∧
    (¬ (jk ≠ "" ∧ jr.success = true ∧ jr.jobs ≠ []) →
      aid ≠ "" → ak ≠ "" → ar.success = true →
      search_jobs_with_fallback jk aid ak jr ar now = ar) ∧
    (¬ (jk ≠ "" ∧ jr.success = true ∧ jr.jobs ≠ []) →
      ¬ ((aid ≠ "" ∧ ak ≠ "") ∧ ar.success = true) →
      search_jobs_with_fallback jk aid ak jr ar now = create_setup_instructions now ∧
      (search_jobs_with_fallback jk aid ak jr ar now).success = false ∧
      (search_jobs_with_fallback jk aid ak jr ar now).jobs = [] ∧
      (search_jobs_with_fallback jk aid ak jr ar now).error =
        some "No job search APIs configured" ∧
      ((search_jobs_with_fallback jk aid ak jr ar now).setup_instructions.map
        (fun si => si.jsearch_rapidapi.env_variable)) = some "RAPIDAPI_KEY" ∧
      ((search_jobs_with_fallback jk aid ak jr ar now).setup_instructions.map
        (fun si => si.adzuna.env_variables)) =
        some ["ADZUNA_APP_ID", "ADZUNA_APP_KEY"] ∧
      ((search_jobs_with_fallback jk aid ak jr ar now).setup_instructions.map
        (fun si => si.jsearch_rapidapi.signup_url)) =
        some "https://rapidapi.com/letscrape-6bRBa3QguO5/api/jsearch" ∧
      ((search_jobs_with_fallback jk aid ak jr ar now).setup_instructions.map
        (fun si => si.adzuna.signup_url)) = some "https://developer.adzuna.com/") := by
  refine ⟨?_, ?_, ?_⟩
  · intro h1 h2 h3
    rw [search_jobs_with_fallback,
      if_pos ⟨h1, h2, List.length_pos.mpr h3⟩]
  · intro h1 h2 h3 h4
    have h1' : ¬ (jk ≠ "" ∧ jr.success = true ∧ 0 < jr.jobs.length) := by
      intro hx
      exact h1 ⟨hx.1, hx.2.1, List.length_pos.mp hx.2.2⟩
    rw [search_jobs_with_fallback, if_neg h1', if_pos ⟨⟨h2, h3⟩, h4⟩]
  · intro h1 h2
    have h1' : ¬ (jk ≠ "" ∧ jr.success = true ∧ 0 < jr.jobs.length) := by
      intro hx
      exact h1 ⟨hx.1, hx.2.1, List.length_pos.mp hx.2.2⟩
    rw [search_jobs_with_fallback, if_neg h1', if_neg h2]
    exact ⟨rfl, rfl, rfl, rfl, rfl, rfl, rfl, rfl⟩

/-- C2 witness: with nothing configured the fallback returns the
setup-instruction failure with both providers' credentials named. -/
theorem spec_C2_witness :
    search_jobs_with_fallback "" "" "" c2_jsearchUnused c2_adzunaEmpty "2025-02-02T00:00:00" =
      create_setup_instructions "2025-02-02T00:00:00" ∧
    (search_jobs_with_fallback "" "" "" c2_jsearchUnused c2_adzunaEmpty "2025-02-02T00:00:00").success = false ∧
    (search_jobs_with_fallback "" "" "" c2_jsearchUnused c2_adzunaEmpty "2025-02-02T00:00:00").jobs = [] ∧
    (search_jobs_with_fallback "" "" "" c2_jsearchUnused c2_adzunaEmpty "2025-02-02T00:00:00").error =
      some "No job search APIs configured" ∧
    ((search_jobs_with_fallback "" "" "" c2_jsearchUnused c2_adzunaEmpty "2025-02-02T00:00:00").setup_instructions.map
      (fun si => si.jsearch_rapidapi.env_variable)) = some "RAPIDAPI_KEY" ∧
    ((search_jobs_with_fallback "" "" "" c2_jsearchUnused c2_adzunaEmpty "2025-02-02T00:00:00").setup_instructions.map
      (fun si => si.adzuna.env_variables)) = some ["ADZUNA_APP_ID", "ADZUNA_APP_KEY"] ∧
    ((search_jobs_with_fallback "" "" "" c2_jsearchUnused c2_adzunaEmpty "2025-02-02T00:00:00").setup_instructions.map
      (fun si => si.jsearch_rapidapi.signup_url)) =
      some "https://rapidapi.com/letscrape-6bRBa3QguO5/api/jsearch" ∧
    ((search_jobs_with_fallback "" "" "" c2_jsearchUnused c2_adzunaEmpty "2025-02-02T00:00:00").setup_instructions.map
      (fun si => si.adzuna.signup_url)) = some "https://developer.adzuna.com/" :=
  (spec_C2_amended "" "" "" c2_jsearchUnused c2_adzunaEmpty "2025-02-02T00:00:00").2.2
    (by simp) (by simp)

/-- C7: every vocabulary skill that occurs word-bounded in the
lower-cased text appears title-cased in `extract_skills`, and the
returned list is always sorted and duplicate-free. -/
theorem spec_C7 :
    (∀ (s : String) (text : String), s ∈ tech_skills →
        wordBoundedContains (pyLower text) (pyLower s) = true →
        titleCase s ∈ extract_skills text) ∧
    (∀ text : String,
        (extract_skills text).Sorted (· ≤ ·) ∧ (extract_skills text).Nodup) := by
  constructor
  · intro s text hs hword
    simp only [extract_skills, List.mem_insertionSort, List.mem_dedup]
    exact List.mem_map_of_mem _
      (List.mem_append_left _ (List.mem_filter.mpr ⟨hs, hword⟩))
  · intro text
    constructor
    · exact List.sorted_insertionSort _ _
    · exact (List.perm_insertionSort _ _).nodup_iff.mpr (List.nodup_dedup _)

/-- C7 witness: the text mentions Python, and `extract_skills`
contains `titleCase "python"`. -/
theorem spec_C7_witness :
    ("python" ∈ tech_skills) ∧
    (wordBoundedContains (pyLower "I know Python well") (pyLower "python") = true) ∧
    titleCase "python" ∈ extract_skills "I know Python well" :=
  ⟨by decide, by decide,
   spec_C7.1 "python" "I know Python well" (by decide) (by decide)⟩

/-- A stripped string has length zero exactly when it is empty. -/
theorem pyStrip_len_zero_iff (t : String) :
    (pyStrip t).data.length = 0 ↔ pyStrip t = "" := by
  rw [List.length_eq_zero]
  exact ⟨fun h => String.ext (h.trans rfl), fun h => by rw [h]⟩

/-- C8: `extract_text_from_pdf` fails with the document-format error
exactly when the input does not start with `%PDF-`; when the header is
present but the attempted extraction methods together recover only
whitespace it fails with one of the two no-extractable-text errors; and
in every other case it returns the stripped, non-empty text. -/
theorem spec_C8 (content : List Nat) (m1 m2 : Except Unit String)
    (m3 : Option String) :
    (¬ pdfHeaderBytes.isPrefixOf content = true →
      extract_text_from_pdf content m1 m2 m3 =
        .error "Invalid PDF file format") ∧
    (pdfHeaderBytes.isPrefixOf content = true →
      pyStrip (collectedPdfText m1 m2 m3) = "" →
      extract_text_from_pdf content m1 m2 m3 =
          .error "PDF appears to be empty or contains only images/scanned content" ∨
        extract_text_from_pdf content m1 m2 m3 =
          .error "Could not extract any text from PDF file") ∧
    (pdfHeaderBytes.isPrefixOf content = true →
      pyStrip (collectedPdfText m1 m2 m3) ≠ "" →
      extract_text_from_pdf content m1 m2 m3 =
          .ok (pyStrip (collectedPdfText m1 m2 m3)) ∧
        pyStrip (collectedPdfText m1 m2 m3) ≠ "") := by
  refine ⟨?_, ?_, ?_⟩
  · intro h
    rw [extract_text_from_pdf.eq_def, if_neg h]
  · intro hp hstrip
    cases m1 with
    | ok t =>
      simp only [collectedPdfText] at hstrip
      simp only [extract_text_from_pdf.eq_def, hp, if_true]
      left
      rw [if_pos ((pyStrip_len_zero_iff t).mpr hstrip)]
    | error e =>
      cases m2 with
      | ok t =>
        simp only [collectedPdfText] at hstrip
        simp only [extract_text_from_pdf.eq_def, hp, if_true]
        left
        rw [if_pos ((pyStrip_len_zero_iff t).mpr hstrip)]
      | error e2 =>
        simp only [collectedPdfText] at hstrip
        simp only [extract_text_from_pdf.eq_def, hp, if_true]
        right
        rw [if_pos hstrip]
  · intro hp hstrip
    cases m1 with
    | ok t =>
      simp only [collectedPdfText] at hstrip ⊢
      simp only [extract_text_from_pdf.eq_def, hp, if_true]
      rw [if_neg (fun hz => hstrip ((pyStrip_len_zero_iff t).mp hz))]
      exact ⟨rfl, hstrip⟩
    | error e =>
      cases m2 with
      | ok t =>
        simp only [collectedPdfText] at hstrip ⊢
        simp only [extract_text_from_pdf.eq_def, hp, if_true]
        rw [if_neg (fun hz => hstrip ((pyStrip_len_zero_iff t).mp hz))]
        exact ⟨rfl, hstrip⟩
      | error e2 =>
        simp only [collectedPdfText] at hstrip ⊢
        simp only [extract_text_from_pdf.eq_def, hp, if_true]
        rw [if_neg hstrip]
        exact ⟨rfl, hstrip⟩

/-- C8 witness: a well-formed input with pdfplumber succeeding returns
the stripped text. -/
theorem spec_C8_witness :
    extract_text_from_pdf pdfHeaderBytes (.ok "  Resume text ") (.error ()) none =
        .ok (pyStrip (collectedPdfText (.ok "  Resume text ") (.error ()) none)) ∧
      pyStrip (collectedPdfText (Except.ok "  Resume text ") (.error ()) none) ≠ "" :=
  (spec_C8 pdfHeaderBytes (.ok "  Resume text ") (.error ()) none).2.2
    (by decide) (by decide)

/-- C9 counterexample: two runs of `parse_resume` on identical bytes
and library outcomes, five seconds apart, give different results — the
`extracted_at` field stores `datetime.now()`. -/
theorem spec_C9_counterexample :
    parse_resume pdfHeaderBytes (.ok "John Resume") (.error ()) none
        "2025-01-01T10:00:00" ≠
      parse_resume pdfHeaderBytes (.ok "John Resume") (.error ()) none
        "2025-01-01T10:00:05" :=
  fun h => absurd (congrArg ParseResult.extractedAt h) (by decide)

/-- C9 (amended): apart from the `extracted_at` timestamp the parse is
deterministic — for the same bytes and the same library outcomes, two
runs agree on every other field of the profile. -/
theorem spec_C9_amended (content : List Nat) (m1 m2 : Except Unit String)
    (m3 : Option String) (t1 t2 : String) :
    (parse_resume content m1 m2 m3 t1).withExtractedAt "" =
      (parse_resume content m1 m2 m3 t2).withExtractedAt "" := by
  cases h : extract_text_from_pdf content m1 m2 m3 <;>
    simp [parse_resume, h, ParseResult.withExtractedAt]

/-- C10: when the first US-pattern phone match carries no country code,
`re.findall` reports the empty capture, so the extracted phone is the
empty string — the digits of the number itself are dropped. -/
theorem spec_C10 (text : String) (rest : List String)
    (h : usPhoneCaptures text = "" :: rest) :
    (extract_contact_info text).phone = "" := by
  simp only [extract_contact_info, h]
  rfl

/-- C10 witness: on a bare US number the captures are `[""]` and the
extracted phone is empty. -/
theorem spec_C10_witness :
    usPhoneCaptures "(555) 123-4567" = [""] ∧
    (extract_contact_info "(555) 123-4567").phone = "" :=
  ⟨by decide, spec_C10 "(555) 123-4567" [] (by decide)⟩
